import Mathlib

/-!
Verification of the two orchestration pipelines of this repository:
the Confluence summarization pipeline (`conf.py`) and the help-desk
intake workflow (`src/helper.py`).

External services (HTTP transport, Azure Computer Vision, Azure OpenAI,
the LangChain LLM chains) are modelled as oracle functions gathered in an
environment structure; a call that raises in Python is an oracle returning
`Except.error ()`.  The bounded thread pool of `summarize_software` is
modelled by an explicit completion-order function `order`: `as_completed`
yields the submitted futures in an arbitrary order, so theorems quantify
over any `order` whose output is a permutation of the submitted task list.

Python string primitives used by the code (`lower`, `strip`, `splitlines`,
`startswith`, `endswith`, `split(":", 1)`, the `in` operator, `str.join`)
are given executable models over `List Char` so that every concrete
witness evaluates inside the kernel.
-/

/-- Model of Python `str.lower()` (ASCII case folding, which is all the
code's literals need). -/
def pyLower (s : String) : String :=
  String.mk (s.data.map Char.toLower)

/-- Characters stripped by Python `str.strip()` with no argument
(whitespace; modelled by `Char.isWhitespace`). -/
def stripChars (cs : List Char) : List Char :=
  ((cs.dropWhile Char.isWhitespace).reverse.dropWhile Char.isWhitespace).reverse

/-- Model of Python `str.strip()`. -/
def pyStrip (s : String) : String :=
  String.mk (stripChars s.data)

/-- Model of Python `str.startswith(pre)`. -/
def pyStartswith (s pre : String) : Bool :=
  List.isPrefixOf pre.data s.data

/-- Model of Python `str.endswith(suf)`. -/
def pyEndswith (s suf : String) : Bool :=
  List.isSuffixOf suf.data s.data

/-- Occurrence of `pat` as a contiguous substring, the model of Python
`pat in s`. -/
def containsSubChars (pat : List Char) : List Char → Bool
  | [] => List.isPrefixOf pat []
  | c :: cs => List.isPrefixOf pat (c :: cs) || containsSubChars pat cs

/-- Model of Python `pat in s` on strings. -/
def pyContains (s pat : String) : Bool :=
  containsSubChars pat.data s.data

/-- Helper for `pySplitlines`: accumulates the current line (reversed) and
splits at a newline, a carriage return, or the pair of the two. -/
def pySplitlinesAux : List Char → List Char → List (List Char)
  | cur, [] => if cur.isEmpty then [] else [cur.reverse]
  | cur, '\r' :: '\n' :: rest => cur.reverse :: pySplitlinesAux [] rest
  | cur, '\n' :: rest => cur.reverse :: pySplitlinesAux [] rest
  | cur, '\r' :: rest => cur.reverse :: pySplitlinesAux [] rest
  | cur, c :: rest => pySplitlinesAux (c :: cur) rest

/-- Model of Python `str.splitlines()` for the common line endings. -/
def pySplitlines (s : String) : List String :=
  (pySplitlinesAux [] s.data).map String.mk

/-- Everything after the first colon of the list; the model of
`line.split(":", 1)[1]` for a line known to contain a colon. -/
def afterFirstColon : List Char → List Char
  | [] => []
  | c :: rest => if c = ':' then rest else afterFirstColon rest

/-- Model of `line.split(":", 1)[1].strip()` (helper.py lines 115 and 117). -/
def labelValue (line : String) : String :=
  pyStrip (String.mk (afterFirstColon line.data))

/-- Model of Python `sep.join(parts)`. -/
def pyJoin (sep : String) : List String → String
  | [] => ""
  | [part] => part
  | part :: parts => part ++ sep ++ pyJoin sep parts

/-! ## Data model of conf.py -/

/-- A Confluence attachment as the code reads it: `att.get("title", "")`
and `att.get("_links", {}).get("download", "")` (conf.py lines 177-179);
an absent field behaves as the empty string. -/
structure Attachment where
  title : String
  download_link : String
deriving DecidableEq

/-- A Confluence page as the code reads it (conf.py lines 166-168):
`page.get("id")`, `page.get("title", "Untitled")`,
`page.get("body", {}).get("view", {}).get("value", "")`. -/
structure ConfluencePage where
  id : String
  title : Option String
  body_view_value : Option String
deriving DecidableEq

/-- One role-tagged message of the chat-completion request
(conf.py lines 127-142). -/
structure ChatMessage where
  role : String
  content : String
deriving DecidableEq

/-- Oracles for the external collaborators of conf.py.  `search` and
`attachments` return the decoded JSON `results` field (`none` when the key
is absent); `download` returns the response bytes; `describe_image` returns
the caption texts of the vision response; `chat_completion` returns the
generated message content; `html_to_text` abstracts the BeautifulSoup
`get_text` conversion (conf.py lines 61-66), a pure library call.
`Except.error ()` models a raised exception. -/
structure ConfEnv where
  search : String → Except Unit (Option (List ConfluencePage))
  attachments : String → Except Unit (Option (List Attachment))
  download : String → Except Unit (List Nat)
  describe_image : List Nat → Except Unit (List String)
  chat_completion : List ChatMessage → Except Unit String
  html_to_text : String → String

/-- conf.py lines 68-87: search Confluence; on success return
`data.get("results", [])`, on any exception return `[]`. -/
def search_confluence (env : ConfEnv) (software_name : String) : List ConfluencePage :=
  match env.search software_name with
  | .ok data => data.getD []
  | .error _ => []

/-- conf.py lines 89-101: list a page's attachments; on success return
`data.get("results", [])`, on any exception return `[]`. -/
def get_page_attachments (env : ConfEnv) (page_id : String) : List Attachment :=
  match env.attachments page_id with
  | .ok data => data.getD []
  | .error _ => []

/-- conf.py lines 103-115: describe an image; first caption text when the
service returns captions, a fixed sentinel when it returns none, and a
fixed failure sentinel when the call raises. -/
def analyze_image (env : ConfEnv) (image_bytes : List Nat) : String :=
  match env.describe_image image_bytes with
  | .ok (caption :: _) => caption
  | .ok [] => "No description available."
  | .error _ => "Image analysis failed."

/-- conf.py lines 204-214: download one attachment and describe it; a
download failure is converted to the per-attachment failure caption.
`analyze_image` never raises, so the `try` only guards the download. -/
def download_and_analyze_image (env : ConfEnv) (download_link : String)
    (image_title : String) : String :=
  match env.download download_link with
  | .ok content => analyze_image env content
  | .error _ => "Failed to analyze image '" ++ image_title ++ "'."

/-- The fixed message list sent to the chat completion
(conf.py lines 127-142). -/
def summary_messages (text_content : String) : List ChatMessage :=
  [⟨"system",
      "You are an AI assistant that provides comprehensive summaries of Confluence content and extracted data from images."⟩,
   ⟨"user",
      "Here is the collected information about the software/tool. Please write a detailed summary:\n"
        ++ text_content⟩]

/-- conf.py lines 117-148: short-circuit on a whitespace-only corpus,
otherwise call the chat completion; strip the returned content; a raised
exception becomes a fixed failure sentinel. -/
def summarize_with_azure_openai (env : ConfEnv) (text_content : String) : String :=
  if pyStrip text_content = "" then "No content available to summarize."
  else
    match env.chat_completion (summary_messages text_content) with
    | .ok content => pyStrip content
    | .error _ => "An error occurred while generating the summary."

/-- conf.py line 40. -/
def CONFLUENCE_BASE_URL : String := "https://your-company.atlassian.net/wiki"

/-- conf.py line 178: case-insensitive filename test against the fixed
image-extension set. -/
def is_image_filename (title : String) : Bool :=
  pyEndswith (pyLower title) ".png" || pyEndswith (pyLower title) ".jpg"
    || pyEndswith (pyLower title) ".jpeg" || pyEndswith (pyLower title) ".bmp"
    || pyEndswith (pyLower title) ".gif" || pyEndswith (pyLower title) ".svg"

/-- conf.py lines 179-181: a non-empty relative download link is resolved
against the base URL; an empty link is left untouched (Python `if
download_link and not download_link.startswith("http")`). -/
def resolve_download_link (download_link : String) : String :=
  if download_link ≠ "" && !(pyStartswith download_link "http") then
    CONFLUENCE_BASE_URL ++ download_link
  else download_link

/-- One unit of work submitted to the thread pool: the resolved link and
the attachment title (conf.py lines 183-184). -/
structure ImgTask where
  link : String
  title : String
deriving DecidableEq

/-- conf.py lines 176-184: the units submitted to the pool, one per
attachment whose filename passes the image filter, in attachment order. -/
def submitted_image_tasks (attachments : List Attachment) : List ImgTask :=
  (attachments.filter (fun att => is_image_filename att.title)).map
    (fun att => ⟨resolve_download_link att.download_link, att.title⟩)

/-- conf.py lines 192-194: the text appended for one collected image
description. -/
def caption_block (image_title image_description : String) : String :=
  "Image '" ++ image_title ++ "' described as: " ++ image_description

/-- conf.py lines 187-196: the caption blocks collected from the pool, in
completion order; a falsy (empty) description is skipped by the
`if image_description:` guard.  The `except` around `future.result()` is
dead code, since `download_and_analyze_image` never raises. -/
def image_caption_blocks (env : ConfEnv) (completed : List ImgTask) : List String :=
  completed.filterMap (fun t =>
    if download_and_analyze_image env t.link t.title = "" then none
    else some (caption_block t.title (download_and_analyze_image env t.link t.title)))

/-- conf.py line 170: the text block appended for one page. -/
def page_text_block (env : ConfEnv) (page : ConfluencePage) : String :=
  "Page Title: " ++ page.title.getD "Untitled" ++ "\n\nContent:\n"
    ++ env.html_to_text (page.body_view_value.getD "") ++ "\n"

/-- conf.py lines 165-196: the parts contributed by one page, its text
block first, then the caption blocks in the completion order `order`
chosen by the scheduler for this page's submitted tasks. -/
def page_parts (env : ConfEnv) (order : List ImgTask → List ImgTask)
    (page : ConfluencePage) : List String :=
  page_text_block env page ::
    image_caption_blocks env (order (submitted_image_tasks (get_page_attachments env page.id)))

/-- conf.py lines 162-196: `combined_text_parts`, accumulated over the
pages in fetch order. -/
def combined_text_parts (env : ConfEnv) (order : List ImgTask → List ImgTask)
    (pages : List ConfluencePage) : List String :=
  pages.flatMap (page_parts env order)

/-- conf.py lines 154-202: the whole pipeline.  `order` is the completion
order of the worker pool (`as_completed`); theorems that depend on it
assume it permutes the submitted tasks. -/
def summarize_software (env : ConfEnv) (order : List ImgTask → List ImgTask)
    (software_name : String) : String :=
  if (search_confluence env software_name).isEmpty then
    "No Confluence pages found for '" ++ software_name ++ "'."
  else
    summarize_with_azure_openai env
      (pyJoin "\n\n" (combined_text_parts env order (search_confluence env software_name)))

/-! ## Data model of src/helper.py -/

/-- Oracles for the three LLM chains of helper.py: the classification
chain (line 42), the verification chain (line 70) and the final-summary
chain (lines 46-48).  The workflow itself never catches their failures, so
the claims below are about runs in which the chains return. -/
structure HelpDeskEnv where
  classify : String → String
  verify : String → String → String
  final_summary : String → String → String → String → String

/-- helper.py lines 41-43: `process_query` strips the chain response. -/
def process_query (env : HelpDeskEnv) (query : String) : String :=
  pyStrip (env.classify query)

/-- helper.py lines 69-71: `verify_request` strips the chain response. -/
def verify_request (env : HelpDeskEnv) (details category : String) : String :=
  pyStrip (env.verify details category)

/-- helper.py lines 45-49: `generate_final_summary` strips the chain
response. -/
def generate_final_summary (env : HelpDeskEnv)
    (query category verification resolution : String) : String :=
  pyStrip (env.final_summary query category verification resolution)

/-- helper.py lines 77-83: the password-reset handler's fixed response. -/
def PasswordResetAgent_process_request (details : String) : String :=
  "Password reset request has been processed. A reset link has been sent to your registered email address."

/-- helper.py lines 85-91: the VDI handler's fixed response. -/
def VDIResourceIncreaseAgent_process_request (details : String) : String :=
  "VDI resource increase request has been processed. Your VDI resources will be updated shortly."

/-- helper.py lines 143-147: the fall-through resolution for every other
category. -/
def general_support_resolution : String :=
  "Your request has been forwarded to our general IT support team. They will get back to you shortly."

/-- helper.py lines 113-117: one step of the line scan; `elif` keeps a
category line from also being read as a missing line, and a later match
overwrites an earlier one. -/
def classification_fold (st : String × String) (line : String) : String × String :=
  if pyStartswith (pyLower line) "category:" then (labelValue line, st.2)
  else if pyStartswith (pyLower line) "missing:" then (st.1, labelValue line)
  else st

/-- helper.py lines 104-118: scan the response lines for the two labelled
values, defaulting Category to "Other IT Support" and Missing to "None". -/
def parse_classification_response (response : String) : String × String :=
  (pySplitlines response).foldl classification_fold ("Other IT Support", "None")

/-- helper.py lines 138-150: stage 3 (routing on the category,
case-insensitively) and stage 4 (final summary). -/
def handle_query_route (env : HelpDeskEnv)
    (query category verification_outcome : String) : String :=
  generate_final_summary env query category verification_outcome
    (if pyLower category = "password reset" then PasswordResetAgent_process_request query
     else if pyLower category = "vdi resource increase" then
       VDIResourceIncreaseAgent_process_request query
     else general_support_resolution)

/-- helper.py lines 131-150: stage 2 (verification) with its heuristic
substring check, then the rest of the workflow. -/
def handle_query_post_missing (env : HelpDeskEnv) (query category : String) : String :=
  if pyContains (pyLower (verify_request env query category)) "missing" then
    "Verification Issue: " ++ verify_request env query category
      ++ ". Please provide complete details."
  else handle_query_route env query category (verify_request env query category)

/-- helper.py lines 120-151: the whole workflow, stage 1 (classification
and the missing-information check) here, later stages in the two
definitions above, which follow the source lines they cite. -/
def handle_query (env : HelpDeskEnv) (query : String) : String :=
  if pyLower (parse_classification_response (process_query env query)).2 ≠ "none" then
    "Missing Information: " ++ (parse_classification_response (process_query env query)).2
      ++ ". Please provide the missing details and try again."
  else
    handle_query_post_missing env query
      (parse_classification_response (process_query env query)).1

/-! ## Concrete environments used to instantiate the theorems -/

/-- An environment whose captioning service succeeds but returns an empty
caption text for every image. -/
def env_empty_caption : ConfEnv where
  search := fun _ => .ok (some [⟨"1", some "Zoom Setup", some "<p>body</p>"⟩])
  attachments := fun _ => .ok (some [⟨"shot.png", "/download/shot.png"⟩])
  download := fun _ => .ok [0]
  describe_image := fun _ => .ok [""]
  chat_completion := fun _ => .error ()
  html_to_text := fun s => s

/-- An environment whose downloads and captioning all succeed. -/
def env_all_ok : ConfEnv :=
  { env_empty_caption with
      describe_image := fun _ => .ok ["a diagram"],
      chat_completion := fun _ => .ok "summary text" }

/-- An environment whose captioning call raises on every image. -/
def env_describe_fails : ConfEnv :=
  { env_empty_caption with describe_image := fun _ => .error () }

/-- An environment whose downloads all raise. -/
def env_download_fails : ConfEnv :=
  { env_empty_caption with download := fun _ => .error () }

/-- An environment whose search and attachment-listing calls raise. -/
def env_transport_fails : ConfEnv :=
  { env_empty_caption with
      search := fun _ => .error (),
      attachments := fun _ => .error () }

/-- A mixed attachment list: two image filenames (one needing
case-insensitive matching) and one non-image filename. -/
def atts_mixed : List Attachment :=
  [⟨"a.png", "/d/a.png"⟩, ⟨"notes.txt", "/d/notes.txt"⟩, ⟨"b.JPG", "https://files/b.jpg"⟩]

/-- The single page returned by `env_empty_caption`. -/
def page0 : ConfluencePage := ⟨"1", some "Zoom Setup", some "<p>body</p>"⟩

/-- A help-desk run whose classification reports a missing detail. -/
def hd_env_missing : HelpDeskEnv where
  classify := fun _ => "Category: VDI Resource Increase\nMissing: employee id"
  verify := fun _ _ => "Verified"
  final_summary := fun q c v r => "Report: " ++ q ++ " | " ++ c ++ " | " ++ v ++ " | " ++ r

/-- A help-desk run whose verification outcome mentions missing info. -/
def hd_env_verification_issue : HelpDeskEnv :=
  { hd_env_missing with
      classify := fun _ => "Category: Password Reset\nMissing: None",
      verify := fun _ _ => "Some info is missing" }

/-- A help-desk run that reaches the routing stage with the password-reset
category. -/
def hd_env_ok : HelpDeskEnv :=
  { hd_env_missing with
      classify := fun _ => "Category: Password Reset\nMissing: None" }

/-- A help-desk run whose classification response has no "Missing:" line
at all. -/
def hd_env_no_missing_line : HelpDeskEnv :=
  { hd_env_ok with classify := fun _ => "Category: Password Reset" }

/-! ## Shared lemmas -/

/-- The per-attachment failure caption is never the empty string, so the
falsy-description guard of conf.py line 191 never drops it. -/
theorem failed_caption_ne_empty (t : String) :
    "Failed to analyze image '" ++ t ++ "'." ≠ "" := by
  intro h
  have h2 := congrArg String.data h
  rw [String.data_append, String.data_append] at h2
  rcases List.append_eq_nil.mp h2 with ⟨h3, -⟩
  rcases List.append_eq_nil.mp h3 with ⟨h4, -⟩
  exact absurd h4 (by decide)

/-- A unit whose description is nonempty contributes its caption block. -/
theorem image_caption_blocks_cons_kept (env : ConfEnv) (t : ImgTask) (ts : List ImgTask)
    (hd : download_and_analyze_image env t.link t.title ≠ "") :
    image_caption_blocks env (t :: ts)
      = caption_block t.title (download_and_analyze_image env t.link t.title)
          :: image_caption_blocks env ts :=
  List.filterMap_cons_some (if_neg hd)

/-- When every collected description is nonempty, the collection loop of
conf.py lines 187-196 keeps exactly one block per unit, in order. -/
theorem image_caption_blocks_all_kept (env : ConfEnv) (completed : List ImgTask)
    (h : ∀ t ∈ completed, download_and_analyze_image env t.link t.title ≠ "") :
    image_caption_blocks env completed
      = completed.map
          (fun t => caption_block t.title (download_and_analyze_image env t.link t.title)) := by
  induction completed with
  | nil => rfl
  | cons t ts ih =>
    have hd := h t (List.mem_cons_self t ts)
    have hts := fun u hu => h u (List.mem_cons_of_mem t hu)
    rw [image_caption_blocks_cons_kept env t ts hd, ih hts, List.map_cons]

/-- Membership version: a unit with a nonempty description has its caption
block in the collected output, whatever the other units do. -/
theorem caption_block_mem (env : ConfEnv) {completed : List ImgTask} {u : ImgTask}
    (hu : u ∈ completed)
    (hne : download_and_analyze_image env u.link u.title ≠ "") :
    caption_block u.title (download_and_analyze_image env u.link u.title)
      ∈ image_caption_blocks env completed :=
  List.mem_filterMap.mpr ⟨u, hu, if_neg hne⟩

/-- A download failure produces the per-attachment failure caption
(conf.py lines 212-214). -/
theorem download_failure_caption (env : ConfEnv) (t : ImgTask)
    (h : env.download t.link = .error ()) :
    download_and_analyze_image env t.link t.title
      = "Failed to analyze image '" ++ t.title ++ "'." := by
  unfold download_and_analyze_image
  rw [h]

/-- A raised describe call produces the generic failure caption
(conf.py lines 113-115). -/
theorem analyze_image_error (env : ConfEnv) (b : List Nat)
    (hd : env.describe_image b = .error ()) :
    analyze_image env b = "Image analysis failed." := by
  unfold analyze_image
  rw [hd]

/-- A describe failure produces the generic failure caption of
`analyze_image`, not the per-attachment one. -/
theorem describe_failure_caption (env : ConfEnv) (t : ImgTask) (b : List Nat)
    (hb : env.download t.link = .ok b) (hd : env.describe_image b = .error ()) :
    download_and_analyze_image env t.link t.title = "Image analysis failed." := by
  unfold download_and_analyze_image
  rw [hb]
  exact analyze_image_error env b hd

/-! ## C1 -/

/-- C1 (amended): for a document with N image-named attachments, and any
completion order of the worker pool, the collected caption blocks are
exactly one per selected attachment with the correct title — one block per
unit, none dropped, none duplicated — provided every unit's collected
description is a nonempty string.  (The counterexample below shows the
unconditional claim fails: a successful describe call returning an empty
caption text is dropped by the `if image_description:` guard.) -/
theorem C1_caption_blocks (env : ConfEnv) (atts : List Attachment)
    (completed : List ImgTask)
    (hperm : completed.Perm (submitted_image_tasks atts))
    (hne : ∀ t ∈ submitted_image_tasks atts,
      download_and_analyze_image env t.link t.title ≠ "") :
    (image_caption_blocks env completed).Perm
        ((submitted_image_tasks atts).map
          (fun t => caption_block t.title (download_and_analyze_image env t.link t.title)))
    ∧ (image_caption_blocks env completed).length
        = (atts.filter (fun att => is_image_filename att.title)).length := by
  have hne' : ∀ t ∈ completed, download_and_analyze_image env t.link t.title ≠ "" :=
    fun t ht => hne t (hperm.mem_iff.mp ht)
  rw [image_caption_blocks_all_kept env completed hne']
  constructor
  · exact hperm.map _
  · rw [List.length_map, hperm.length_eq, submitted_image_tasks, List.length_map]

/-- C1 counterexample: in `env_empty_caption` the single page has exactly
one image attachment, the download and describe calls both succeed, yet
the corpus parts contain zero caption blocks, because the successful
caption text is empty and the `if image_description:` guard drops it. -/
theorem C1_counterexample :
    ((get_page_attachments env_empty_caption "1").filter
        (fun att => is_image_filename att.title)).length = 1
    ∧ combined_text_parts env_empty_caption (fun ts => ts) [page0]
        = [page_text_block env_empty_caption page0] := by
  constructor
  · decide
  · decide

/-- C1 witness: `env_all_ok` with the mixed attachment list (two image
filenames, one other file) and the identity completion order. -/
theorem C1_witness :
    (image_caption_blocks env_all_ok (submitted_image_tasks atts_mixed)).Perm
        ((submitted_image_tasks atts_mixed).map
          (fun t => caption_block t.title
            (download_and_analyze_image env_all_ok t.link t.title)))
    ∧ (image_caption_blocks env_all_ok (submitted_image_tasks atts_mixed)).length
        = (atts_mixed.filter (fun att => is_image_filename att.title)).length :=
  C1_caption_blocks env_all_ok atts_mixed (submitted_image_tasks atts_mixed)
    (List.Perm.refl _) (by decide)

/-! ## C2 -/

/-- C2 (amended): a failing unit never aborts its siblings and its result
is included in the corpus exactly like a successful caption; a failure in
the download step yields the per-attachment caption "Failed to analyze
image '<title>'.", while a failure in the describe step yields the generic
caption "Image analysis failed." produced inside `analyze_image`.  (The
counterexample below shows the original claim fails: a describe-step
failure does not produce the per-attachment caption.) -/
theorem C2_failure_captions (env : ConfEnv) (completed : List ImgTask)
    (t : ImgTask) (ht : t ∈ completed) :
    (env.download t.link = .error () →
        caption_block t.title ("Failed to analyze image '" ++ t.title ++ "'.")
          ∈ image_caption_blocks env completed)
    ∧ (∀ b, env.download t.link = .ok b → env.describe_image b = .error () →
        caption_block t.title "Image analysis failed."
          ∈ image_caption_blocks env completed)
    ∧ (∀ u ∈ completed, download_and_analyze_image env u.link u.title ≠ "" →
        caption_block u.title (download_and_analyze_image env u.link u.title)
          ∈ image_caption_blocks env completed) := by
  refine ⟨?_, ?_, ?_⟩
  · intro hdl
    have hd := download_failure_caption env t hdl
    have hmem := caption_block_mem env ht
      (by rw [hd]; exact failed_caption_ne_empty t.title)
    rw [hd] at hmem
    exact hmem
  · intro b hb hdesc
    have hd := describe_failure_caption env t b hb hdesc
    have hmem := caption_block_mem env ht (by rw [hd]; decide)
    rw [hd] at hmem
    exact hmem
  · intro u hu hne
    exact caption_block_mem env hu hne

/-- C2 counterexample: a unit whose download succeeds and whose describe
call fails produces the generic caption, not the per-attachment failure
caption claimed for every failing unit. -/
theorem C2_counterexample :
    download_and_analyze_image env_describe_fails "/d/a.png" "a.png"
        = "Image analysis failed."
    ∧ download_and_analyze_image env_describe_fails "/d/a.png" "a.png"
        ≠ "Failed to analyze image 'a.png'." := by
  constructor
  · decide
  · decide

/-- C2 witness: a download-failing unit in a two-unit pool. -/
theorem C2_witness :
    (env_download_fails.download "/d/a.png" = .error () →
        caption_block "a.png" ("Failed to analyze image '" ++ "a.png" ++ "'.")
          ∈ image_caption_blocks env_download_fails
              [⟨"/d/a.png", "a.png"⟩, ⟨"/d/b.jpg", "b.jpg"⟩])
    ∧ (∀ b, env_download_fails.download "/d/a.png" = .ok b →
        env_download_fails.describe_image b = .error () →
        caption_block "a.png" "Image analysis failed."
          ∈ image_caption_blocks env_download_fails
              [⟨"/d/a.png", "a.png"⟩, ⟨"/d/b.jpg", "b.jpg"⟩])
    ∧ (∀ u ∈ ([⟨"/d/a.png", "a.png"⟩, ⟨"/d/b.jpg", "b.jpg"⟩] : List ImgTask),
        download_and_analyze_image env_download_fails u.link u.title ≠ "" →
        caption_block u.title (download_and_analyze_image env_download_fails u.link u.title)
          ∈ image_caption_blocks env_download_fails
              [⟨"/d/a.png", "a.png"⟩, ⟨"/d/b.jpg", "b.jpg"⟩]) :=
  C2_failure_captions env_download_fails
    [⟨"/d/a.png", "a.png"⟩, ⟨"/d/b.jpg", "b.jpg"⟩]
    ⟨"/d/a.png", "a.png"⟩ (by decide)

/-! ## C3 -/

/-- C3: whenever the search step yields zero pages — including a failed
search call, which `search_confluence` maps to the empty list —
`summarize_software` returns the literal not-found message, for every
possible summarization oracle (so the summarization service is never
invoked). -/
theorem C3_no_pages (env : ConfEnv) (order : List ImgTask → List ImgTask)
    (keyword : String) (h : search_confluence env keyword = [])
    (chat : List ChatMessage → Except Unit String) :
    summarize_software { env with chat_completion := chat } order keyword
      = "No Confluence pages found for '" ++ keyword ++ "'." := by
  have hs : search_confluence { env with chat_completion := chat } keyword
      = search_confluence env keyword := rfl
  unfold summarize_software
  rw [hs, h]
  rfl

/-- C3 witness: a failing search call in `env_transport_fails`. -/
theorem C3_witness :
    summarize_software
        { env_transport_fails with chat_completion := fun _ => .ok "never used" }
        (fun ts => ts) "MyCoolSoftware"
      = "No Confluence pages found for '" ++ "MyCoolSoftware" ++ "'." :=
  C3_no_pages env_transport_fails (fun ts => ts) "MyCoolSoftware" (by decide)
    (fun _ => .ok "never used")

/-! ## C4 -/

/-- C4: a whitespace-only corpus short-circuits to the fixed
"nothing to summarize" message for every chat oracle (so the service is
never invoked), and on a non-whitespace corpus a failing service call
yields the fixed failure sentinel instead of raising. -/
theorem C4_summarizer (env : ConfEnv) (text_content : String) :
    (pyStrip text_content = "" →
        ∀ chat : List ChatMessage → Except Unit String,
          summarize_with_azure_openai { env with chat_completion := chat } text_content
            = "No content available to summarize.")
    ∧ (pyStrip text_content ≠ "" →
        env.chat_completion (summary_messages text_content) = .error () →
        summarize_with_azure_openai env text_content
          = "An error occurred while generating the summary.") := by
  constructor
  · intro h chat
    unfold summarize_with_azure_openai
    rw [if_pos h]
  · intro h hcall
    unfold summarize_with_azure_openai
    rw [if_neg h, hcall]

/-- C4 witness: the whitespace-only corpus "  \n " and the corpus "content"
with a failing chat call. -/
theorem C4_witness :
    summarize_with_azure_openai
        { env_empty_caption with chat_completion := fun _ => .ok "never used" } "  \n "
      = "No content available to summarize."
    ∧ summarize_with_azure_openai env_empty_caption "content"
      = "An error occurred while generating the summary." :=
  ⟨(C4_summarizer env_empty_caption "  \n ").1 (by decide) (fun _ => .ok "never used"),
   (C4_summarizer env_empty_caption "content").2 (by decide) rfl⟩

/-! ## C9 -/

/-- C9: a failed search call and a failed attachment-listing call each
yield the empty sequence rather than raising; a run whose search fails is
observationally identical to a run whose search returns zero results; and
a page whose attachment listing fails still contributes its text block, so
processing of the document continues. -/
theorem C9_transport_failures (env : ConfEnv) (name pid : String)
    (page : ConfluencePage) :
    (env.search name = .error () → search_confluence env name = [])
    ∧ (env.attachments pid = .error () → get_page_attachments env pid = [])
    ∧ (∀ (order : List ImgTask → List ImgTask) (kw : String),
        summarize_software { env with search := fun _ => .error () } order kw
          = summarize_software { env with search := fun _ => .ok (some []) } order kw)
    ∧ (env.attachments page.id = .error () →
        ∀ order : List ImgTask → List ImgTask, (order []).Perm [] →
          page_parts env order page = [page_text_block env page]) := by
  refine ⟨?_, ?_, ?_, ?_⟩
  · intro h
    unfold search_confluence
    rw [h]
  · intro h
    unfold get_page_attachments
    rw [h]
  · intro order kw
    rfl
  · intro h order horder
    have hatts : get_page_attachments env page.id = [] := by
      unfold get_page_attachments
      rw [h]
    unfold page_parts
    rw [hatts]
    have hord : order (submitted_image_tasks []) = [] := horder.eq_nil
    rw [hord]
    rfl

/-- C9 witness: `env_transport_fails`, whose search and attachment calls
both raise, with the identity completion order and the concrete page. -/
theorem C9_witness :
    (env_transport_fails.search "Zoom" = .error () →
        search_confluence env_transport_fails "Zoom" = [])
    ∧ (env_transport_fails.attachments "1" = .error () →
        get_page_attachments env_transport_fails "1" = [])
    ∧ (∀ (order : List ImgTask → List ImgTask) (kw : String),
        summarize_software { env_transport_fails with search := fun _ => .error () } order kw
          = summarize_software { env_transport_fails with search := fun _ => .ok (some []) } order kw)
    ∧ (env_transport_fails.attachments page0.id = .error () →
        ∀ order : List ImgTask → List ImgTask, (order []).Perm [] →
          page_parts env_transport_fails order page0
            = [page_text_block env_transport_fails page0]) :=
  C9_transport_failures env_transport_fails "Zoom" "1" page0

/-! ## C10 -/

/-- C10: an attachment with an image filename and an empty download link
is still submitted — the empty URI is left unresolved by the
`if download_link and not download_link.startswith("http")` guard — and,
since fetching an empty URI raises, the corpus still receives exactly that
attachment's failure-sentinel caption block rather than skipping it. -/
theorem C10_empty_download_link (env : ConfEnv) (atts : List Attachment)
    (att : Attachment) (completed : List ImgTask)
    (hdl : env.download "" = .error ())
    (ha : att ∈ atts) (himg : is_image_filename att.title = true)
    (hlink : att.download_link = "")
    (hperm : completed.Perm (submitted_image_tasks atts)) :
    resolve_download_link att.download_link = ""
    ∧ (⟨"", att.title⟩ : ImgTask) ∈ submitted_image_tasks atts
    ∧ caption_block att.title ("Failed to analyze image '" ++ att.title ++ "'.")
        ∈ image_caption_blocks env completed := by
  have hres : resolve_download_link att.download_link = "" := by
    rw [hlink]
    decide
  have hmem₁ : att ∈ atts.filter (fun a => is_image_filename a.title) :=
    List.mem_filter.mpr ⟨ha, himg⟩
  have hmem₂ : (⟨resolve_download_link att.download_link, att.title⟩ : ImgTask)
      ∈ submitted_image_tasks atts :=
    List.mem_map_of_mem
      (fun a => (⟨resolve_download_link a.download_link, a.title⟩ : ImgTask)) hmem₁
  rw [hres] at hmem₂
  refine ⟨hres, hmem₂, ?_⟩
  have ht : (⟨"", att.title⟩ : ImgTask) ∈ completed := hperm.mem_iff.mpr hmem₂
  have hd : download_and_analyze_image env "" att.title
      = "Failed to analyze image '" ++ att.title ++ "'." :=
    download_failure_caption env ⟨"", att.title⟩ hdl
  have hmem := caption_block_mem env ht
    (by rw [show (⟨"", att.title⟩ : ImgTask).link = "" from rfl, hd]
        exact failed_caption_ne_empty att.title)
  rw [show (⟨"", att.title⟩ : ImgTask).link = "" from rfl, hd] at hmem
  exact hmem

/-- C10 witness: a single image attachment with an empty download link in
an environment whose download of the empty URI raises. -/
theorem C10_witness :
    resolve_download_link (Attachment.download_link ⟨"logo.svg", ""⟩) = ""
    ∧ (⟨"", "logo.svg"⟩ : ImgTask)
        ∈ submitted_image_tasks [⟨"logo.svg", ""⟩]
    ∧ caption_block "logo.svg" ("Failed to analyze image '" ++ "logo.svg" ++ "'.")
        ∈ image_caption_blocks env_download_fails
            (submitted_image_tasks [⟨"logo.svg", ""⟩]) :=
  C10_empty_download_link env_download_fails [⟨"logo.svg", ""⟩] ⟨"logo.svg", ""⟩
    (submitted_image_tasks [⟨"logo.svg", ""⟩])
    rfl (by decide) (by decide) (by decide) (List.Perm.refl _)

/-! ## C5 -/

/-- When no line of the suffix carries the category label, the scan leaves
the category component of the accumulator unchanged. -/
theorem classification_foldl_fst (lines : List String) :
    ∀ st : String × String,
      (∀ l ∈ lines, pyStartswith (pyLower l) "category:" = false) →
      (lines.foldl classification_fold st).1 = st.1 := by
  induction lines with
  | nil => intro st _; rfl
  | cons l ls ih =>
    intro st h
    have hl := h l (List.mem_cons_self l ls)
    have hls := fun u hu => h u (List.mem_cons_of_mem l hu)
    rw [List.foldl_cons, ih _ hls]
    unfold classification_fold
    simp only [hl, Bool.false_eq_true, if_false]
    split <;> rfl

/-- When no line of the suffix carries the missing label, the scan leaves
the missing component of the accumulator unchanged. -/
theorem classification_foldl_snd (lines : List String) :
    ∀ st : String × String,
      (∀ l ∈ lines, pyStartswith (pyLower l) "missing:" = false) →
      (lines.foldl classification_fold st).2 = st.2 := by
  induction lines with
  | nil => intro st _; rfl
  | cons l ls ih =>
    intro st h
    have hl := h l (List.mem_cons_self l ls)
    have hls := fun u hu => h u (List.mem_cons_of_mem l hu)
    rw [List.foldl_cons, ih _ hls]
    unfold classification_fold
    split
    · rfl
    · simp only [hl, Bool.false_eq_true, if_false]

/-- C5: the parse scans the response lines case-insensitively for the
labels "Category:" and "Missing:"; with no category line the category
defaults to "Other IT Support", with no missing line the missing value
defaults to "None", and in the latter case `handle_query` proceeds past
the missing-information check into `handle_query_post_missing` instead of
short-circuiting. -/
theorem C5_parse_defaults (response : String) :
    ((∀ l ∈ pySplitlines response, pyStartswith (pyLower l) "category:" = false) →
        (parse_classification_response response).1 = "Other IT Support")
    ∧ ((∀ l ∈ pySplitlines response, pyStartswith (pyLower l) "missing:" = false) →
        (parse_classification_response response).2 = "None"
        ∧ ∀ (env : HelpDeskEnv) (query : String),
            process_query env query = response →
            handle_query env query
              = handle_query_post_missing env query
                  (parse_classification_response response).1) := by
  constructor
  · intro h
    exact classification_foldl_fst (pySplitlines response) _ h
  · intro h
    have hsnd : (parse_classification_response response).2 = "None" :=
      classification_foldl_snd (pySplitlines response) _ h
    refine ⟨hsnd, ?_⟩
    intro env query hq
    unfold handle_query
    rw [hq, if_neg]
    intro hne
    rw [hsnd] at hne
    exact hne (by decide)

/-- C5 witness: the response "Category: Password Reset", which has no
missing line, inside the run `hd_env_no_missing_line`. -/
theorem C5_witness :
    (parse_classification_response "Category: Password Reset").2 = "None"
    ∧ handle_query hd_env_no_missing_line "reset my password"
        = handle_query_post_missing hd_env_no_missing_line "reset my password"
            (parse_classification_response "Category: Password Reset").1 := by
  have h := (C5_parse_defaults "Category: Password Reset").2 (by decide)
  exact ⟨h.1, h.2 hd_env_no_missing_line "reset my password" (by decide)⟩

/-! ## C6 -/

/-- C6: when the parsed missing value is not the literal "none"
case-insensitively, `handle_query` returns the missing-information
message, for every verification and final-summary oracle — so neither
verification, nor routing, nor the final summary is ever invoked. -/
theorem C6_missing_short_circuit (env : HelpDeskEnv) (query : String)
    (h : pyLower (parse_classification_response (process_query env query)).2 ≠ "none") :
    ∀ (vf : String → String → String)
      (sf : String → String → String → String → String),
      handle_query { env with verify := vf, final_summary := sf } query
        = "Missing Information: "
            ++ (parse_classification_response (process_query env query)).2
            ++ ". Please provide the missing details and try again." := by
  intro vf sf
  have hcl : process_query { env with verify := vf, final_summary := sf } query
      = process_query env query := rfl
  unfold handle_query
  rw [hcl, if_pos h]

/-- C6 witness: `hd_env_missing`, whose classification reports a missing
employee id. -/
theorem C6_witness :
    handle_query
        { hd_env_missing with
            verify := fun _ _ => "never used",
            final_summary := fun _ _ _ _ => "never used" }
        "increase my vdi"
      = "Missing Information: "
          ++ (parse_classification_response
                (process_query hd_env_missing "increase my vdi")).2
          ++ ". Please provide the missing details and try again." :=
  C6_missing_short_circuit hd_env_missing "increase my vdi" (by decide)
    (fun _ _ => "never used") (fun _ _ _ _ => "never used")

/-! ## C7 -/

/-- C7: when the workflow reaches verification (parsed missing value is
"none" case-insensitively) and the verification outcome contains the
substring "missing" anywhere, case-insensitively, `handle_query` returns
the verification-issue message for every final-summary oracle — so neither
the routing stage nor the final-summary stage is ever invoked (routing is
a pure dispatch whose only observable effect is through the final-summary
call). -/
theorem C7_verification_short_circuit (env : HelpDeskEnv) (query : String)
    (hm : pyLower (parse_classification_response (process_query env query)).2 = "none")
    (hv : pyContains
        (pyLower (verify_request env query
          (parse_classification_response (process_query env query)).1))
        "missing" = true) :
    ∀ sf : String → String → String → String → String,
      handle_query { env with final_summary := sf } query
        = "Verification Issue: "
            ++ verify_request env query
                (parse_classification_response (process_query env query)).1
            ++ ". Please provide complete details." := by
  intro sf
  have hcl : process_query { env with final_summary := sf } query
      = process_query env query := rfl
  have hvr : ∀ c, verify_request { env with final_summary := sf } query c
      = verify_request env query c := fun _ => rfl
  unfold handle_query handle_query_post_missing
  rw [hcl, if_neg (fun hne => hne hm), hvr, if_pos hv]

/-- C7 witness: `hd_env_verification_issue`, whose verification outcome is
"Some info is missing". -/
theorem C7_witness :
    handle_query
        { hd_env_verification_issue with final_summary := fun _ _ _ _ => "never used" }
        "reset my password"
      = "Verification Issue: "
          ++ verify_request hd_env_verification_issue "reset my password"
              (parse_classification_response
                (process_query hd_env_verification_issue "reset my password")).1
          ++ ". Please provide complete details." :=
  C7_verification_short_circuit hd_env_verification_issue "reset my password"
    (by decide) (by decide) (fun _ _ _ _ => "never used")

/-! ## C8 -/

/-- C8: when the workflow reaches routing, the resolution passed to the
final summary is the password-reset handler's fixed response when the
category equals "password reset" case-insensitively, the VDI handler's
fixed response when it equals "vdi resource increase" case-insensitively,
and the generic forwarding message for every other category. -/
theorem C8_routing (env : HelpDeskEnv) (query : String)
    (hm : pyLower (parse_classification_response (process_query env query)).2 = "none")
    (hv : pyContains
        (pyLower (verify_request env query
          (parse_classification_response (process_query env query)).1))
        "missing" = false) :
    handle_query env query
      = generate_final_summary env query
          (parse_classification_response (process_query env query)).1
          (verify_request env query
            (parse_classification_response (process_query env query)).1)
          (if pyLower (parse_classification_response (process_query env query)).1
              = "password reset" then
            PasswordResetAgent_process_request query
          else if pyLower (parse_classification_response (process_query env query)).1
              = "vdi resource increase" then
            VDIResourceIncreaseAgent_process_request query
          else general_support_resolution) := by
  unfold handle_query handle_query_post_missing handle_query_route
  rw [if_neg (fun hne => hne hm), if_neg]
  rw [hv]
  exact Bool.false_ne_true

/-- C8 witness: `hd_env_ok` routes the "Password Reset" category to the
password-reset handler's fixed response. -/
theorem C8_witness :
    handle_query hd_env_ok "reset my password"
      = generate_final_summary hd_env_ok "reset my password"
          (parse_classification_response (process_query hd_env_ok "reset my password")).1
          (verify_request hd_env_ok "reset my password"
            (parse_classification_response (process_query hd_env_ok "reset my password")).1)
          (if pyLower (parse_classification_response
                (process_query hd_env_ok "reset my password")).1 = "password reset" then
            PasswordResetAgent_process_request "reset my password"
          else if pyLower (parse_classification_response
                (process_query hd_env_ok "reset my password")).1
              = "vdi resource increase" then
            VDIResourceIncreaseAgent_process_request "reset my password"
          else general_support_resolution) :=
  C8_routing hd_env_ok "reset my password" (by decide) (by decide)
